import Mathlib

/-!
Verification of two subsystems of the dagster repository:
* status resolution and staleness reconciliation for asset-check execution
  records (`dagster_graphql/implementation/fetch_asset_checks.py`), and
* the subprocess-based external-execution client
  (`dagster/_core/ext/subprocess.py`).

The Python code is dynamically typed, so enum-valued fields are embedded as
`String` (the Python enums in play are string-valued: a value outside the
declared members is representable at runtime and the code guards against it
with `check.failed`).  Fallible Python code (`check.not_none`, `check.failed`)
is embedded with `Except PyError`.
-/

/-- Errors raised by `dagster._check` helpers.  `invariantViolation` embeds
`check.failed(...)` (the fail-loudly arm on an unexpected status);
`noneCheck` embeds `check.not_none(...)` applied to `None`. -/
inductive PyError where
  | invariantViolation
  | noneCheck
deriving DecidableEq, Repr

-- Members of the string-valued Python enum `AssetCheckExecutionRecordStatus`.
namespace AssetCheckExecutionRecordStatus

def PLANNED : String := "PLANNED"

def SUCCEEDED : String := "SUCCEEDED"

def FAILED : String := "FAILED"

end AssetCheckExecutionRecordStatus

-- Members of the string-valued Python enum `AssetCheckExecutionResolvedStatus`.
namespace AssetCheckExecutionResolvedStatus

def SUCCEEDED : String := "SUCCEEDED"

def FAILED : String := "FAILED"

def EXECUTION_FAILED : String := "EXECUTION_FAILED"

def SKIPPED : String := "SKIPPED"

def IN_PROGRESS : String := "IN_PROGRESS"

end AssetCheckExecutionResolvedStatus

-- Members of the string-valued Python enum `DagsterRunStatus`.
namespace DagsterRunStatus

def QUEUED : String := "QUEUED"

def NOT_STARTED : String := "NOT_STARTED"

def STARTING : String := "STARTING"

def STARTED : String := "STARTED"

def SUCCESS : String := "SUCCESS"

def FAILURE : String := "FAILURE"

def CANCELING : String := "CANCELING"

def CANCELED : String := "CANCELED"

end DagsterRunStatus

/-- A run fetched by `instance.get_run_by_id`: only the fields read by
`_get_asset_check_execution_status` are embedded. -/
structure DagsterRun where
  status : String
deriving DecidableEq, Repr

/-- `DagsterRun.is_finished`: the run status is one of the terminal statuses
(`FAILURE`, `SUCCESS`, `CANCELED`). -/
def DagsterRun.is_finished (run : DagsterRun) : Bool :=
  run.status = DagsterRunStatus.FAILURE ∨ run.status = DagsterRunStatus.SUCCESS ∨
    run.status = DagsterRunStatus.CANCELED

/-- Target-materialization reference stored on an `AssetCheckEvaluation`. -/
structure TargetMaterializationData where
  storage_id : Nat
deriving DecidableEq, Repr

/-- `AssetCheckEvaluation` payload: only the field read by the reconciler. -/
structure AssetCheckEvaluation where
  target_materialization_data : Option TargetMaterializationData
deriving DecidableEq, Repr

/-- `dagster_event` of an event-log entry, already cast to its
check-evaluation payload as the source does. -/
structure DagsterEvent where
  event_specific_data : AssetCheckEvaluation
deriving DecidableEq, Repr

/-- An event-log entry: the reconciler reads its `run_id` (for a
materialization event) and its optional `dagster_event` (for an evaluation
event). -/
structure EventLogEntry where
  run_id : String
  dagster_event : Option DagsterEvent
deriving DecidableEq, Repr

/-- An event-log record (a materialization record here): storage id plus the
underlying entry. -/
structure EventLogRecord where
  storage_id : Nat
  event_log_entry : EventLogEntry
deriving DecidableEq, Repr

/-- `asset_entry` of an asset record: only `last_materialization_record` is
read. -/
structure AssetEntry where
  last_materialization_record : Option EventLogRecord
deriving DecidableEq, Repr

/-- An asset record returned by `inst.get_asset_records`. -/
structure AssetRecord where
  asset_entry : AssetEntry
deriving DecidableEq, Repr

/-- A run record returned by `instance.get_run_record_by_id`: only
`create_timestamp` is read. -/
structure RunRecord where
  create_timestamp : Nat
deriving DecidableEq, Repr

/-- `AssetCheckExecutionRecord`: one recorded attempt to evaluate a check. -/
structure AssetCheckExecutionRecord where
  run_id : String
  storage_id : Nat
  status : String
  evaluation_event : Option EventLogEntry
deriving DecidableEq, Repr

/-- `ExternalAssetCheck`: identifies a check by asset key and name. -/
structure ExternalAssetCheck where
  asset_key : String
  name : String
deriving DecidableEq, Repr

/-- The storage collaborators of a `DagsterInstance` that the resolution code
queries (never mutates): run store, run-record store, asset records, and the
check-execution store.  `asset_check_executions` holds, per (asset key, check
name), the full record list in descending creation order; the storage query
below applies cursor and limit to it. -/
structure DagsterInstance where
  get_run_by_id : String → Option DagsterRun
  get_run_record_by_id : String → Option RunRecord
  asset_records : List String → List AssetRecord
  asset_check_executions : String → String → List AssetCheckExecutionRecord

/-- `inst.get_asset_records`. -/
def DagsterInstance.get_asset_records (inst : DagsterInstance)
    (keys : List String) : List AssetRecord :=
  inst.asset_records keys

/-- `instance.event_log_storage.get_asset_check_executions`: the stored
descending-order list, filtered to storage ids strictly below the cursor when
one is given, truncated to `limit`. -/
def DagsterInstance.get_asset_check_executions (inst : DagsterInstance)
    (asset_key : String) (check_name : String) (limit : Nat)
    (cursor : Option Nat) : List AssetCheckExecutionRecord :=
  (match cursor with
    | none => inst.asset_check_executions asset_key check_name
    | some c =>
        (inst.asset_check_executions asset_key check_name).filter
          (fun e => e.storage_id < c)).take limit

/-- `_get_asset_check_execution_status`: derive the resolved status of a
check-execution record, consulting the owning run when the record is still
`PLANNED`. -/
def _get_asset_check_execution_status (inst : DagsterInstance)
    (execution : AssetCheckExecutionRecord) : Except PyError String :=
  let record_status := execution.status
  if record_status = AssetCheckExecutionRecordStatus.SUCCEEDED then
    .ok AssetCheckExecutionResolvedStatus.SUCCEEDED
  else if record_status = AssetCheckExecutionRecordStatus.FAILED then
    .ok AssetCheckExecutionResolvedStatus.FAILED
  else if record_status = AssetCheckExecutionRecordStatus.PLANNED then
    match inst.get_run_by_id execution.run_id with
    | none => .error .noneCheck
    | some run =>
        if run.is_finished then
          if run.status = DagsterRunStatus.FAILURE then
            .ok AssetCheckExecutionResolvedStatus.EXECUTION_FAILED
          else
            .ok AssetCheckExecutionResolvedStatus.SKIPPED
        else
          .ok AssetCheckExecutionResolvedStatus.IN_PROGRESS
  else
    .error .invariantViolation

/-- Lines 118-119 of the source: the latest materialization record of the
checked asset, `None` when the asset has no record or was never
materialized. -/
def latest_materialization_of (inst : DagsterInstance)
    (asset_key : String) : Option EventLogRecord :=
  match inst.get_asset_records [asset_key] with
  | [] => none
  | r :: _ => r.asset_entry.last_materialization_record

/-- `_execution_targets_latest_materialization`: decide whether a resolved
execution is still relevant to the asset's latest materialization. -/
def _execution_targets_latest_materialization (inst : DagsterInstance)
    (external_asset_check : ExternalAssetCheck)
    (execution : AssetCheckExecutionRecord)
    (resolved_status : String) : Except PyError Bool :=
  if resolved_status = AssetCheckExecutionResolvedStatus.IN_PROGRESS then
    .ok true
  else
    match latest_materialization_of inst external_asset_check.asset_key with
    | none => .ok true
    | some latest_materialization =>
        if resolved_status = AssetCheckExecutionResolvedStatus.SUCCEEDED ∨
            resolved_status = AssetCheckExecutionResolvedStatus.FAILED then
          match execution.evaluation_event with
          | none => .error .noneCheck
          | some evaluation_event =>
              match evaluation_event.dagster_event with
              | none => .error .noneCheck
              | some dagster_event =>
                  let evaluation := dagster_event.event_specific_data
                  match evaluation.target_materialization_data with
                  | none => .ok false
                  | some tmd =>
                      .ok (tmd.storage_id = latest_materialization.storage_id)
        else if resolved_status = AssetCheckExecutionResolvedStatus.EXECUTION_FAILED ∨
            resolved_status = AssetCheckExecutionResolvedStatus.SKIPPED then
          let latest_materialization_run_id :=
            latest_materialization.event_log_entry.run_id
          if latest_materialization_run_id = execution.run_id then
            .ok true
          else
            match inst.get_run_record_by_id latest_materialization_run_id,
                inst.get_run_record_by_id execution.run_id with
            | some latest_materialization_run_record, some execution_run_record =>
                .ok (execution_run_record.create_timestamp >
                  latest_materialization_run_record.create_timestamp)
            | _, _ => .ok false
        else
          .error .invariantViolation

/-- `GrapheneAssetCheckExecution`: the surfaced pair of record and resolved
status. -/
structure GrapheneAssetCheckExecution where
  execution : AssetCheckExecutionRecord
  resolved_status : String
deriving DecidableEq, Repr

/-- `fetch_execution_for_latest_materialization`: query the single most
recently created execution (limit 1), resolve its status, and surface it only
when the reconciler judges it relevant to the latest materialization. -/
def fetch_execution_for_latest_materialization (inst : DagsterInstance)
    (external_asset_check : ExternalAssetCheck) :
    Except PyError (Option GrapheneAssetCheckExecution) :=
  match inst.get_asset_check_executions external_asset_check.asset_key
      external_asset_check.name 1 none with
  | [] => .ok none
  | execution :: _ => do
      let resolved_status ← _get_asset_check_execution_status inst execution
      let targets ← _execution_targets_latest_materialization inst
        external_asset_check execution resolved_status
      pure (if targets then some ⟨execution, resolved_status⟩ else none)

/-!
### Subprocess external-execution client (`dagster/_core/ext/subprocess.py`)

`_ExtSubprocess.run` has two verifiable aspects: the environment dict passed
to `Popen` (a pure dict expression, embedded as `composed_env`), and the
resource/process lifecycle of the call (embedded as a trace semantics over
the scenario parameters that determine its control flow: which transports are
caller-supplied, whether each acquisition raises, and the child's exit code).
-/

/-- A Python mapping of environment variables, read by key lookup. -/
abbrev PyEnv : Type := String → Option String

/-- The empty dict. -/
def emptyEnv : PyEnv := fun _ => none

/-- Python dict merge `\x7b**a, **b\x7d`: keys of `b` override keys of `a`. -/
def dictMerge (a b : PyEnv) : PyEnv :=
  fun k => match b k with
    | some v => some v
    | none => a k

/-- Python `x or \x7b\x7d` on an optional mapping (as a lookup function, an
absent mapping and an empty one agree). -/
def orEmpty (e : Option PyEnv) : PyEnv :=
  match e with
  | none => emptyEnv
  | some m => m

/-- The environment dict built by `_ExtSubprocess.run` (source lines 62-66):
`\x7b**self.get_base_env(), **\x7b**(env or \x7b\x7d), **(self.env or \x7b\x7d)\x7d, **io_env\x7d`. -/
def composed_env (base_env : PyEnv) (env : Option PyEnv) (self_env : Option PyEnv)
    (io_env : PyEnv) : PyEnv :=
  dictMerge (dictMerge base_env (dictMerge (orEmpty env) (orEmpty self_env))) io_env

/-- Observable events of one `_ExtSubprocess.run` call: resource acquisitions
(`ExitStack.enter_context` succeeding), the `Popen` spawn, and resource
releases (context-manager exits run by the `ExitStack`). -/
inductive RunEvent where
  | acquireTempdir
  | acquireInjector
  | acquireReader
  | spawn
  | releaseTempdir
  | releaseInjector
  | releaseReader
deriving DecidableEq, Repr

/-- One concrete scenario of a `run` call: whether the caller supplied a
custom context injector / message reader, whether each acquisition
(`inject_context` / `read_messages` entry) succeeds or raises, and the
child's exit code when a child is spawned. -/
structure RunConfig where
  custom_injector : Bool
  custom_reader : Bool
  injector_setup_ok : Bool
  reader_setup_ok : Bool
  exit_code : Int
deriving DecidableEq, Repr

/-- Errors propagating out of `run`: an exception raised during `_setup_io`
acquisition, or `DagsterExternalExecutionError` carrying the child's exit
code. -/
inductive RunError where
  | setup_failure
  | external_execution_error (code : Int)
deriving DecidableEq, Repr

/-- Trace semantics of `_ExtSubprocess.run` with `_setup_io` inlined.
`_setup_io` enters a temporary directory on its `ExitStack` when either
default transport is needed, then the injector, then the reader; the stack
unwinds in reverse entry order both when a later acquisition raises and when
the `with` body finishes (normally or by exception).  The body spawns the
child, waits, and raises `DagsterExternalExecutionError` on a non-zero exit
code; the `with` closes the stack before that error reaches the caller. -/
def ExtSubprocess.run (cfg : RunConfig) : List RunEvent × Except RunError Unit :=
  let needs_tempdir := !cfg.custom_injector || !cfg.custom_reader
  let tempdir_events : List RunEvent :=
    if needs_tempdir then [.acquireTempdir] else []
  let stack0 : List RunEvent :=
    if needs_tempdir then [.releaseTempdir] else []
  if cfg.injector_setup_ok then
    if cfg.reader_setup_ok then
      let stack2 : List RunEvent := .releaseReader :: .releaseInjector :: stack0
      let trace :=
        tempdir_events ++ [.acquireInjector, .acquireReader, .spawn] ++ stack2
      if cfg.exit_code = 0 then
        (trace, .ok ())
      else
        (trace, .error (.external_execution_error cfg.exit_code))
    else
      (tempdir_events ++ [.acquireInjector] ++ (.releaseInjector :: stack0),
        .error .setup_failure)
  else
    (tempdir_events ++ stack0, .error .setup_failure)

/-- The acquisition events of a trace, in order. -/
def acquisitions (tr : List RunEvent) : List RunEvent :=
  tr.filter fun e =>
    e = .acquireTempdir || e = .acquireInjector || e = .acquireReader

/-- The release events of a trace, in order. -/
def releases (tr : List RunEvent) : List RunEvent :=
  tr.filter fun e =>
    e = .releaseTempdir || e = .releaseInjector || e = .releaseReader

/-- The release event paired to an acquisition event. -/
def releaseFor : RunEvent → RunEvent
  | .acquireTempdir => .releaseTempdir
  | .acquireInjector => .releaseInjector
  | .acquireReader => .releaseReader
  | e => e

/-!
### Claims about `_get_asset_check_execution_status`
-/

/-- C1: a record stored SUCCEEDED resolves to SUCCEEDED and a record stored
FAILED resolves to FAILED regardless of the owning run's state; a record
stored PLANNED resolves to IN_PROGRESS when the owning run is not finished,
to EXECUTION_FAILED when the run finished in failure, and to SKIPPED when the
run finished in any other state. -/
theorem resolved_status_follows_derivation_table (inst : DagsterInstance)
    (execution : AssetCheckExecutionRecord) (run : DagsterRun) :
    (execution.status = AssetCheckExecutionRecordStatus.SUCCEEDED →
      _get_asset_check_execution_status inst execution =
        .ok AssetCheckExecutionResolvedStatus.SUCCEEDED) ∧
    (execution.status = AssetCheckExecutionRecordStatus.FAILED →
      _get_asset_check_execution_status inst execution =
        .ok AssetCheckExecutionResolvedStatus.FAILED) ∧
    (execution.status = AssetCheckExecutionRecordStatus.PLANNED →
      inst.get_run_by_id execution.run_id = some run →
      ((run.is_finished = false →
        _get_asset_check_execution_status inst execution =
          .ok AssetCheckExecutionResolvedStatus.IN_PROGRESS) ∧
      (run.is_finished = true → run.status = DagsterRunStatus.FAILURE →
        _get_asset_check_execution_status inst execution =
          .ok AssetCheckExecutionResolvedStatus.EXECUTION_FAILED) ∧
      (run.is_finished = true → run.status ≠ DagsterRunStatus.FAILURE →
        _get_asset_check_execution_status inst execution =
          .ok AssetCheckExecutionResolvedStatus.SKIPPED))) := by
  refine ⟨?_, ?_, ?_⟩
  · intro h
    simp [_get_asset_check_execution_status, h,
      AssetCheckExecutionRecordStatus.SUCCEEDED]
  · intro h
    simp [_get_asset_check_execution_status, h,
      AssetCheckExecutionRecordStatus.SUCCEEDED,
      AssetCheckExecutionRecordStatus.FAILED]
  · intro h hrun
    refine ⟨?_, ?_, ?_⟩
    · intro hfin
      simp [_get_asset_check_execution_status, h, hrun, hfin,
        AssetCheckExecutionRecordStatus.SUCCEEDED,
        AssetCheckExecutionRecordStatus.FAILED,
        AssetCheckExecutionRecordStatus.PLANNED]
    · intro hfin hfail
      simp [_get_asset_check_execution_status, h, hrun, hfin, hfail,
        AssetCheckExecutionRecordStatus.SUCCEEDED,
        AssetCheckExecutionRecordStatus.FAILED,
        AssetCheckExecutionRecordStatus.PLANNED]
    · intro hfin hfail
      simp [_get_asset_check_execution_status, h, hrun, hfin, hfail,
        AssetCheckExecutionRecordStatus.SUCCEEDED,
        AssetCheckExecutionRecordStatus.FAILED,
        AssetCheckExecutionRecordStatus.PLANNED]

/-- An instance whose run store answers every id with a still-running run. -/
def instRunning : DagsterInstance :=
  ⟨fun _ => some ⟨DagsterRunStatus.STARTED⟩, fun _ => none, fun _ => [],
    fun _ _ => []⟩

/-- An instance whose run store answers every id with a failed run. -/
def instRunFailed : DagsterInstance :=
  ⟨fun _ => some ⟨DagsterRunStatus.FAILURE⟩, fun _ => none, fun _ => [],
    fun _ _ => []⟩

/-- An instance whose run store answers every id with a succeeded run. -/
def instRunSucceeded : DagsterInstance :=
  ⟨fun _ => some ⟨DagsterRunStatus.SUCCESS⟩, fun _ => none, fun _ => [],
    fun _ _ => []⟩

/-- An instance whose run store has no runs. -/
def instNoRuns : DagsterInstance :=
  ⟨fun _ => none, fun _ => none, fun _ => [], fun _ _ => []⟩

/-- A record stored SUCCEEDED. -/
def execStoredSucceeded : AssetCheckExecutionRecord :=
  ⟨"run1", 1, AssetCheckExecutionRecordStatus.SUCCEEDED, none⟩

/-- A record stored FAILED. -/
def execStoredFailed : AssetCheckExecutionRecord :=
  ⟨"run1", 1, AssetCheckExecutionRecordStatus.FAILED, none⟩

/-- A record stored PLANNED. -/
def execStoredPlanned : AssetCheckExecutionRecord :=
  ⟨"run1", 1, AssetCheckExecutionRecordStatus.PLANNED, none⟩

/-- Witness for C1: every row of the derivation table evaluated at concrete
records and runs. -/
theorem resolved_status_follows_derivation_table_witness :
    _get_asset_check_execution_status instRunning execStoredSucceeded =
      .ok AssetCheckExecutionResolvedStatus.SUCCEEDED ∧
    _get_asset_check_execution_status instRunning execStoredFailed =
      .ok AssetCheckExecutionResolvedStatus.FAILED ∧
    _get_asset_check_execution_status instRunning execStoredPlanned =
      .ok AssetCheckExecutionResolvedStatus.IN_PROGRESS ∧
    _get_asset_check_execution_status instRunFailed execStoredPlanned =
      .ok AssetCheckExecutionResolvedStatus.EXECUTION_FAILED ∧
    _get_asset_check_execution_status instRunSucceeded execStoredPlanned =
      .ok AssetCheckExecutionResolvedStatus.SKIPPED :=
  ⟨(resolved_status_follows_derivation_table instRunning execStoredSucceeded
      ⟨DagsterRunStatus.STARTED⟩).1 rfl,
    (resolved_status_follows_derivation_table instRunning execStoredFailed
      ⟨DagsterRunStatus.STARTED⟩).2.1 rfl,
    ((resolved_status_follows_derivation_table instRunning execStoredPlanned
      ⟨DagsterRunStatus.STARTED⟩).2.2 rfl rfl).1 (by decide),
    ((resolved_status_follows_derivation_table instRunFailed execStoredPlanned
      ⟨DagsterRunStatus.FAILURE⟩).2.2 rfl rfl).2.1 (by decide) rfl,
    ((resolved_status_follows_derivation_table instRunSucceeded execStoredPlanned
      ⟨DagsterRunStatus.SUCCESS⟩).2.2 rfl rfl).2.2 (by decide) (by decide)⟩

/-- C9: resolving a PLANNED record whose run id has no run record raises
(`check.not_none`) instead of resolving conservatively. -/
theorem planned_record_missing_run_raises (inst : DagsterInstance)
    (execution : AssetCheckExecutionRecord)
    (h : execution.status = AssetCheckExecutionRecordStatus.PLANNED)
    (hrun : inst.get_run_by_id execution.run_id = none) :
    _get_asset_check_execution_status inst execution = .error PyError.noneCheck := by
  simp [_get_asset_check_execution_status, h, hrun,
    AssetCheckExecutionRecordStatus.SUCCEEDED,
    AssetCheckExecutionRecordStatus.FAILED,
    AssetCheckExecutionRecordStatus.PLANNED]

/-- Witness for C9: a PLANNED record against an empty run store. -/
theorem planned_record_missing_run_raises_witness :
    _get_asset_check_execution_status instNoRuns execStoredPlanned =
      .error PyError.noneCheck :=
  planned_record_missing_run_raises instNoRuns execStoredPlanned rfl rfl

/-!
### Claims about `_execution_targets_latest_materialization`
-/

/-- C2: for an execution resolved EXECUTION_FAILED or SKIPPED with a latest
materialization present, first match wins: a shared run id surfaces the
execution unconditionally; otherwise it is surfaced iff both run records
exist and the execution's run was created strictly after the
materialization's run, and a missing run record yields "not surfaced" with
no error. -/
theorem failed_or_skipped_uses_run_id_then_timestamps (inst : DagsterInstance)
    (chk : ExternalAssetCheck) (execution : AssetCheckExecutionRecord)
    (st : String) (m : EventLogRecord)
    (hst : st = AssetCheckExecutionResolvedStatus.EXECUTION_FAILED ∨
      st = AssetCheckExecutionResolvedStatus.SKIPPED)
    (hm : latest_materialization_of inst chk.asset_key = some m) :
    (m.event_log_entry.run_id = execution.run_id →
      _execution_targets_latest_materialization inst chk execution st = .ok true) ∧
    (m.event_log_entry.run_id ≠ execution.run_id →
      ∀ mr er, inst.get_run_record_by_id m.event_log_entry.run_id = some mr →
        inst.get_run_record_by_id execution.run_id = some er →
        _execution_targets_latest_materialization inst chk execution st =
          .ok (decide (er.create_timestamp > mr.create_timestamp))) ∧
    (m.event_log_entry.run_id ≠ execution.run_id →
      (inst.get_run_record_by_id m.event_log_entry.run_id = none ∨
        inst.get_run_record_by_id execution.run_id = none) →
      _execution_targets_latest_materialization inst chk execution st = .ok false) := by
  refine ⟨?_, ?_, ?_⟩
  · intro heq
    rcases hst with rfl | rfl <;>
      simp [_execution_targets_latest_materialization, hm, heq,
        AssetCheckExecutionResolvedStatus.IN_PROGRESS,
        AssetCheckExecutionResolvedStatus.SUCCEEDED,
        AssetCheckExecutionResolvedStatus.FAILED,
        AssetCheckExecutionResolvedStatus.EXECUTION_FAILED,
        AssetCheckExecutionResolvedStatus.SKIPPED]
  · intro hne mr er h1 h2
    rcases hst with rfl | rfl <;>
      simp [_execution_targets_latest_materialization, hm, hne, h1, h2,
        AssetCheckExecutionResolvedStatus.IN_PROGRESS,
        AssetCheckExecutionResolvedStatus.SUCCEEDED,
        AssetCheckExecutionResolvedStatus.FAILED,
        AssetCheckExecutionResolvedStatus.EXECUTION_FAILED,
        AssetCheckExecutionResolvedStatus.SKIPPED]
  · intro hne hmiss
    rcases hmiss with h1 | h1 <;> rcases hst with rfl | rfl <;>
      [skip; skip; cases h2 : inst.get_run_record_by_id m.event_log_entry.run_id;
        cases h2 : inst.get_run_record_by_id m.event_log_entry.run_id] <;>
      simp_all [_execution_targets_latest_materialization, hm, hne, h1,
        AssetCheckExecutionResolvedStatus.IN_PROGRESS,
        AssetCheckExecutionResolvedStatus.SUCCEEDED,
        AssetCheckExecutionResolvedStatus.FAILED,
        AssetCheckExecutionResolvedStatus.EXECUTION_FAILED,
        AssetCheckExecutionResolvedStatus.SKIPPED]

/-- C3: for an execution resolved SUCCEEDED or FAILED with a latest
materialization present, an evaluation payload without a
target-materialization reference is not surfaced; with one, it is surfaced
iff the referenced storage id equals the latest materialization's storage id
exactly. -/
theorem succeeded_or_failed_matches_target_storage_id (inst : DagsterInstance)
    (chk : ExternalAssetCheck) (execution : AssetCheckExecutionRecord)
    (st : String) (m : EventLogRecord) (ev : EventLogEntry) (de : DagsterEvent)
    (hst : st = AssetCheckExecutionResolvedStatus.SUCCEEDED ∨
      st = AssetCheckExecutionResolvedStatus.FAILED)
    (hm : latest_materialization_of inst chk.asset_key = some m)
    (hev : execution.evaluation_event = some ev)
    (hde : ev.dagster_event = some de) :
    (de.event_specific_data.target_materialization_data = none →
      _execution_targets_latest_materialization inst chk execution st = .ok false) ∧
    (∀ tmd, de.event_specific_data.target_materialization_data = some tmd →
      _execution_targets_latest_materialization inst chk execution st =
        .ok (decide (tmd.storage_id = m.storage_id))) := by
  constructor
  · intro htmd
    rcases hst with rfl | rfl <;>
      simp [_execution_targets_latest_materialization, hm, hev, hde, htmd,
        AssetCheckExecutionResolvedStatus.IN_PROGRESS,
        AssetCheckExecutionResolvedStatus.SUCCEEDED,
        AssetCheckExecutionResolvedStatus.FAILED]
  · intro tmd htmd
    rcases hst with rfl | rfl <;>
      simp [_execution_targets_latest_materialization, hm, hev, hde, htmd,
        AssetCheckExecutionResolvedStatus.IN_PROGRESS,
        AssetCheckExecutionResolvedStatus.SUCCEEDED,
        AssetCheckExecutionResolvedStatus.FAILED]

/-- C4: an execution resolved IN_PROGRESS is surfaced unconditionally, and
any execution is surfaced unconditionally when the asset has no
materialization yet. -/
theorem in_progress_or_unmaterialized_always_surfaced (inst : DagsterInstance)
    (chk : ExternalAssetCheck) (execution : AssetCheckExecutionRecord)
    (st : String) :
    (st = AssetCheckExecutionResolvedStatus.IN_PROGRESS →
      _execution_targets_latest_materialization inst chk execution st = .ok true) ∧
    (latest_materialization_of inst chk.asset_key = none →
      _execution_targets_latest_materialization inst chk execution st = .ok true) := by
  constructor
  · intro h
    simp [_execution_targets_latest_materialization, h]
  · intro hm
    by_cases h : st = AssetCheckExecutionResolvedStatus.IN_PROGRESS
    · simp [_execution_targets_latest_materialization, h]
    · simp [_execution_targets_latest_materialization, h, hm]

/-- C8 (amended): an impossible stored status makes status resolution fail
with `check.failed` (InvariantViolation), and an impossible resolved status
makes the staleness reconciler fail with `check.failed` whenever a latest
materialization exists (with no materialization the reconciler surfaces the
execution before reaching the status dispatch). -/
theorem unexpected_status_invariant_violation (inst : DagsterInstance)
    (chk : ExternalAssetCheck) (execution : AssetCheckExecutionRecord)
    (st : String) (m : EventLogRecord) :
    (execution.status ≠ AssetCheckExecutionRecordStatus.SUCCEEDED →
      execution.status ≠ AssetCheckExecutionRecordStatus.FAILED →
      execution.status ≠ AssetCheckExecutionRecordStatus.PLANNED →
      _get_asset_check_execution_status inst execution =
        .error PyError.invariantViolation) ∧
    (st ≠ AssetCheckExecutionResolvedStatus.SUCCEEDED →
      st ≠ AssetCheckExecutionResolvedStatus.FAILED →
      st ≠ AssetCheckExecutionResolvedStatus.EXECUTION_FAILED →
      st ≠ AssetCheckExecutionResolvedStatus.SKIPPED →
      st ≠ AssetCheckExecutionResolvedStatus.IN_PROGRESS →
      latest_materialization_of inst chk.asset_key = some m →
      _execution_targets_latest_materialization inst chk execution st =
        .error PyError.invariantViolation) := by
  constructor
  · intro h1 h2 h3
    simp [_get_asset_check_execution_status, h1, h2, h3]
  · intro h1 h2 h3 h4 h5 hm
    simp [_execution_targets_latest_materialization, h1, h2, h3, h4, h5, hm]

/-- Counterexample for C8 as stated: with the resolved status "BOGUS"
(outside the five legal resolved statuses) and an asset with no
materialization, the reconciler returns "surfaced" instead of failing. -/
theorem unexpected_resolved_status_counterexample :
    ("BOGUS" ≠ AssetCheckExecutionResolvedStatus.SUCCEEDED ∧
      "BOGUS" ≠ AssetCheckExecutionResolvedStatus.FAILED ∧
      "BOGUS" ≠ AssetCheckExecutionResolvedStatus.EXECUTION_FAILED ∧
      "BOGUS" ≠ AssetCheckExecutionResolvedStatus.SKIPPED ∧
      "BOGUS" ≠ AssetCheckExecutionResolvedStatus.IN_PROGRESS) ∧
    _execution_targets_latest_materialization instNoRuns ⟨"asset1", "check1"⟩
      execStoredPlanned "BOGUS" = .ok true := by
  exact ⟨⟨by decide, by decide, by decide, by decide, by decide⟩, rfl⟩

/-- Check identity used by the reconciliation witnesses. -/
def assetCheckA : ExternalAssetCheck := ⟨"asset1", "check1"⟩

/-- A materialization record owned by run `runM`, storage id 10. -/
def matFromRunM : EventLogRecord := ⟨10, ⟨"runM", none⟩⟩

/-- Instance whose latest materialization is `matFromRunM` and whose run
records place `runM` at creation time 100 and `runE` at 200. -/
def instTimestamps : DagsterInstance :=
  ⟨fun _ => none,
    fun rid =>
      if rid = "runM" then some ⟨100⟩
      else if rid = "runE" then some ⟨200⟩
      else none,
    fun _ => [⟨⟨some matFromRunM⟩⟩],
    fun _ _ => []⟩

/-- Instance with the same latest materialization but an empty run-record
store. -/
def instNoRunRecords : DagsterInstance :=
  ⟨fun _ => none, fun _ => none, fun _ => [⟨⟨some matFromRunM⟩⟩], fun _ _ => []⟩

/-- A PLANNED execution that ran in the materialization's own run. -/
def execInRunM : AssetCheckExecutionRecord :=
  ⟨"runM", 2, AssetCheckExecutionRecordStatus.PLANNED, none⟩

/-- A PLANNED execution that ran in the later run `runE`. -/
def execInRunE : AssetCheckExecutionRecord :=
  ⟨"runE", 2, AssetCheckExecutionRecordStatus.PLANNED, none⟩

/-- Witness for C2: same run id surfaced; later-created run surfaced via the
timestamp comparison; missing run records not surfaced. -/
theorem failed_or_skipped_uses_run_id_then_timestamps_witness :
    _execution_targets_latest_materialization instTimestamps assetCheckA
      execInRunM AssetCheckExecutionResolvedStatus.EXECUTION_FAILED = .ok true ∧
    _execution_targets_latest_materialization instTimestamps assetCheckA
      execInRunE AssetCheckExecutionResolvedStatus.SKIPPED = .ok true ∧
    _execution_targets_latest_materialization instNoRunRecords assetCheckA
      execInRunE AssetCheckExecutionResolvedStatus.EXECUTION_FAILED = .ok false :=
  ⟨(failed_or_skipped_uses_run_id_then_timestamps instTimestamps assetCheckA
      execInRunM _ matFromRunM (Or.inl rfl) rfl).1 rfl,
    (failed_or_skipped_uses_run_id_then_timestamps instTimestamps assetCheckA
      execInRunE _ matFromRunM (Or.inr rfl) rfl).2.1 (by decide) ⟨100⟩ ⟨200⟩
      rfl rfl,
    (failed_or_skipped_uses_run_id_then_timestamps instNoRunRecords assetCheckA
      execInRunE _ matFromRunM (Or.inl rfl) rfl).2.2 (by decide) (Or.inl rfl)⟩

/-- Instance whose latest materialization has storage id 42. -/
def instMat42 : DagsterInstance :=
  ⟨fun _ => none, fun _ => none, fun _ => [⟨⟨some ⟨42, ⟨"runM", none⟩⟩⟩⟩],
    fun _ _ => []⟩

/-- Instance whose latest materialization has storage id 43. -/
def instMat43 : DagsterInstance :=
  ⟨fun _ => none, fun _ => none, fun _ => [⟨⟨some ⟨43, ⟨"runM", none⟩⟩⟩⟩],
    fun _ _ => []⟩

/-- Evaluation event targeting materialization storage id 42. -/
def evalEventTarget42 : EventLogEntry := ⟨"runE", some ⟨⟨some ⟨42⟩⟩⟩⟩

/-- Evaluation event with no target-materialization reference. -/
def evalEventNoTarget : EventLogEntry := ⟨"runE", some ⟨⟨none⟩⟩⟩

/-- A SUCCEEDED execution whose evaluation targets storage id 42. -/
def execEval42 : AssetCheckExecutionRecord :=
  ⟨"runE", 2, AssetCheckExecutionRecordStatus.SUCCEEDED, some evalEventTarget42⟩

/-- A SUCCEEDED execution whose evaluation has no target reference. -/
def execEvalNoTarget : AssetCheckExecutionRecord :=
  ⟨"runE", 2, AssetCheckExecutionRecordStatus.SUCCEEDED, some evalEventNoTarget⟩

/-- Witness for C3: target id 42 against latest id 42 is surfaced, against
latest id 43 is not, and a payload without a target is not surfaced. -/
theorem succeeded_or_failed_matches_target_storage_id_witness :
    _execution_targets_latest_materialization instMat42 assetCheckA execEval42
      AssetCheckExecutionResolvedStatus.SUCCEEDED = .ok true ∧
    _execution_targets_latest_materialization instMat43 assetCheckA execEval42
      AssetCheckExecutionResolvedStatus.SUCCEEDED = .ok false ∧
    _execution_targets_latest_materialization instMat42 assetCheckA
      execEvalNoTarget AssetCheckExecutionResolvedStatus.SUCCEEDED = .ok false :=
  ⟨(succeeded_or_failed_matches_target_storage_id instMat42 assetCheckA
      execEval42 _ ⟨42, ⟨"runM", none⟩⟩ ⟨"runE", some ⟨⟨some ⟨42⟩⟩⟩⟩ ⟨⟨some ⟨42⟩⟩⟩
      (Or.inl rfl) rfl rfl rfl).2 ⟨42⟩ rfl,
    (succeeded_or_failed_matches_target_storage_id instMat43 assetCheckA
      execEval42 _ ⟨43, ⟨"runM", none⟩⟩ ⟨"runE", some ⟨⟨some ⟨42⟩⟩⟩⟩ ⟨⟨some ⟨42⟩⟩⟩
      (Or.inl rfl) rfl rfl rfl).2 ⟨42⟩ rfl,
    (succeeded_or_failed_matches_target_storage_id instMat42 assetCheckA
      execEvalNoTarget _ ⟨42, ⟨"runM", none⟩⟩ ⟨"runE", some ⟨⟨none⟩⟩⟩ ⟨⟨none⟩⟩
      (Or.inl rfl) rfl rfl rfl).1 rfl⟩

/-- Witness for C4: an IN_PROGRESS execution is surfaced, and a SUCCEEDED one
is surfaced when the asset has no materialization. -/
theorem in_progress_or_unmaterialized_always_surfaced_witness :
    _execution_targets_latest_materialization instNoRuns assetCheckA
      execStoredPlanned AssetCheckExecutionResolvedStatus.IN_PROGRESS = .ok true ∧
    _execution_targets_latest_materialization instNoRuns assetCheckA
      execStoredSucceeded AssetCheckExecutionResolvedStatus.SUCCEEDED = .ok true :=
  ⟨(in_progress_or_unmaterialized_always_surfaced instNoRuns assetCheckA
      execStoredPlanned _).1 rfl,
    (in_progress_or_unmaterialized_always_surfaced instNoRuns assetCheckA
      execStoredSucceeded _).2 rfl⟩

/-- A record carrying a status outside the stored-status enum. -/
def execStoredBogus : AssetCheckExecutionRecord := ⟨"runE", 1, "BOGUS", none⟩

/-- Witness for C8 (amended): a bogus stored status fails resolution, and a
bogus resolved status fails the reconciler once a materialization exists. -/
theorem unexpected_status_invariant_violation_witness :
    _get_asset_check_execution_status instNoRuns execStoredBogus =
      .error PyError.invariantViolation ∧
    _execution_targets_latest_materialization instTimestamps assetCheckA
      execStoredBogus "BOGUS" = .error PyError.invariantViolation :=
  ⟨(unexpected_status_invariant_violation instNoRuns assetCheckA
      execStoredBogus "BOGUS" matFromRunM).1 (by decide) (by decide) (by decide),
    (unexpected_status_invariant_violation instTimestamps assetCheckA
      execStoredBogus "BOGUS" matFromRunM).2 (by decide) (by decide) (by decide)
      (by decide) (by decide) rfl⟩

/-- C10: `fetch_execution_for_latest_materialization` inspects only the most
recently created execution (storage query with limit 1): it returns nothing
when no execution exists, and returns nothing when that single latest
execution is judged stale, whatever older executions exist. -/
theorem fetch_inspects_only_latest_execution (inst : DagsterInstance)
    (chk : ExternalAssetCheck) :
    (inst.asset_check_executions chk.asset_key chk.name = [] →
      fetch_execution_for_latest_materialization inst chk = .ok none) ∧
    (∀ e rest st, inst.asset_check_executions chk.asset_key chk.name = e :: rest →
      _get_asset_check_execution_status inst e = .ok st →
      _execution_targets_latest_materialization inst chk e st = .ok false →
      fetch_execution_for_latest_materialization inst chk = .ok none) := by
  constructor
  · intro h
    simp [fetch_execution_for_latest_materialization,
      DagsterInstance.get_asset_check_executions, h]
  · intro e rest st hlist hres hrec
    have hq : inst.get_asset_check_executions chk.asset_key chk.name 1 none = [e] := by
      simp [DagsterInstance.get_asset_check_executions, hlist]
    simp [fetch_execution_for_latest_materialization, hq, hres, hrec,
      Except.instMonad, Except.bind, Except.map, Except.pure]

/-- The latest execution: SUCCEEDED, targeting storage id 5 (stale against a
latest materialization with storage id 10). -/
def execLatestStale : AssetCheckExecutionRecord :=
  ⟨"runE", 3, AssetCheckExecutionRecordStatus.SUCCEEDED,
    some ⟨"runE", some ⟨⟨some ⟨5⟩⟩⟩⟩⟩

/-- An older execution: SUCCEEDED, targeting storage id 10 (it would match
the latest materialization). -/
def execOlderMatching : AssetCheckExecutionRecord :=
  ⟨"runE", 2, AssetCheckExecutionRecordStatus.SUCCEEDED,
    some ⟨"runE", some ⟨⟨some ⟨10⟩⟩⟩⟩⟩

/-- Instance with latest materialization of storage id 10 and the two
executions above, newest first. -/
def instTwoExecutions : DagsterInstance :=
  ⟨fun _ => none, fun _ => none, fun _ => [⟨⟨some matFromRunM⟩⟩],
    fun _ _ => [execLatestStale, execOlderMatching]⟩

/-- Witness for C10: the older execution would be surfaced, yet the fetch
returns nothing because the stale latest one is the only record inspected;
and with no executions at all the fetch returns nothing. -/
theorem fetch_inspects_only_latest_execution_witness :
    _execution_targets_latest_materialization instTwoExecutions assetCheckA
      execOlderMatching AssetCheckExecutionResolvedStatus.SUCCEEDED = .ok true ∧
    fetch_execution_for_latest_materialization instTwoExecutions assetCheckA =
      .ok none ∧
    fetch_execution_for_latest_materialization instNoRuns assetCheckA =
      .ok none :=
  ⟨rfl,
    (fetch_inspects_only_latest_execution instTwoExecutions assetCheckA).2
      execLatestStale [execOlderMatching]
      AssetCheckExecutionResolvedStatus.SUCCEEDED rfl rfl rfl,
    (fetch_inspects_only_latest_execution instNoRuns assetCheckA).1 rfl⟩

/-!
### Claims about `_ExtSubprocess.run`
-/

/-- C5: in the composed child environment, later layers override earlier ones
in the order base env, caller-supplied env, client default env, transport env
vars; in particular a transport-provided variable always wins over any
colliding user-supplied one. -/
theorem env_composition_layering (base_env : PyEnv) (env self_env : Option PyEnv)
    (io_env : PyEnv) (k : String) :
    composed_env base_env env self_env io_env k =
      ((io_env k).orElse fun _ => ((orEmpty self_env k).orElse fun _ =>
        ((orEmpty env k).orElse fun _ => base_env k))) ∧
    (∀ v, io_env k = some v →
      composed_env base_env env self_env io_env k = some v) := by
  constructor
  · simp only [composed_env, dictMerge]
    cases io_env k <;> cases orEmpty self_env k <;> cases orEmpty env k <;>
      simp [Option.orElse]
  · intro v hv
    simp [composed_env, dictMerge, hv]

/-- Base process environment used by the C5 witness. -/
def baseEnvW : PyEnv := fun k =>
  if k = "PATH" then some "/usr/bin"
  else if k = "DAGSTER_EXT_CONTEXT" then some "base"
  else none

/-- Caller-supplied env that collides with a transport-reserved name. -/
def userEnvW : PyEnv := fun k =>
  if k = "DAGSTER_EXT_CONTEXT" then some "user" else none

/-- Transport-provided env vars. -/
def ioEnvW : PyEnv := fun k =>
  if k = "DAGSTER_EXT_CONTEXT" then some "transport" else none

/-- Witness for C5: on the colliding key the child observes the transport's
value. -/
theorem env_composition_layering_witness :
    composed_env baseEnvW (some userEnvW) (some emptyEnv) ioEnvW
      "DAGSTER_EXT_CONTEXT" = some "transport" :=
  (env_composition_layering baseEnvW (some userEnvW) (some emptyEnv) ioEnvW
    "DAGSTER_EXT_CONTEXT").2 "transport" rfl

/-- C6: with both acquisitions succeeding, `run` returns normally iff the
child exits 0; a non-zero exit code is surfaced as
`DagsterExternalExecutionError` carrying that code, with the reader, the
injector, and (when default transports were used) the working area all
released during the call, before the error reaches the caller. -/
theorem run_exit_code_mapping (cfg : RunConfig)
    (hinj : cfg.injector_setup_ok = true) (hread : cfg.reader_setup_ok = true) :
    ((ExtSubprocess.run cfg).2 = .ok () ↔ cfg.exit_code = 0) ∧
    (cfg.exit_code ≠ 0 →
      (ExtSubprocess.run cfg).2 =
        .error (.external_execution_error cfg.exit_code)) ∧
    RunEvent.releaseReader ∈ (ExtSubprocess.run cfg).1 ∧
    RunEvent.releaseInjector ∈ (ExtSubprocess.run cfg).1 ∧
    ((cfg.custom_injector && cfg.custom_reader) = false →
      RunEvent.releaseTempdir ∈ (ExtSubprocess.run cfg).1) := by
  obtain ⟨ci, cr, iok, rok, code⟩ := cfg
  simp only at hinj hread
  subst hinj hread
  cases ci <;> cases cr <;> by_cases hz : code = 0 <;>
    simp_all [ExtSubprocess.run]

/-- C7: on every exit path of `run` the releases are exactly the acquired
resources, in reverse acquisition order, and a setup failure means no child
process was ever spawned. -/
theorem run_releases_acquired_in_reverse_order (cfg : RunConfig) :
    releases (ExtSubprocess.run cfg).1 =
      ((acquisitions (ExtSubprocess.run cfg).1).map releaseFor).reverse ∧
    ((ExtSubprocess.run cfg).2 = .error .setup_failure →
      RunEvent.spawn ∉ (ExtSubprocess.run cfg).1) := by
  obtain ⟨ci, cr, iok, rok, code⟩ := cfg
  cases ci <;> cases cr <;> cases iok <;> cases rok <;>
    by_cases hz : code = 0 <;>
    simp_all [ExtSubprocess.run, releases, acquisitions, releaseFor]

/-- Scenario of C6's witness: default transports, successful setup, child
exits with code 2. -/
def cfgExit2 : RunConfig := ⟨false, false, true, true, 2⟩

/-- Witness for C6: exit code 2 surfaces as an execution error carrying 2,
with reader, injector and working area released during the call. -/
theorem run_exit_code_mapping_witness :
    (ExtSubprocess.run cfgExit2).2 =
      .error (.external_execution_error 2) ∧
    RunEvent.releaseReader ∈ (ExtSubprocess.run cfgExit2).1 ∧
    RunEvent.releaseInjector ∈ (ExtSubprocess.run cfgExit2).1 ∧
    RunEvent.releaseTempdir ∈ (ExtSubprocess.run cfgExit2).1 :=
  ⟨(run_exit_code_mapping cfgExit2 rfl rfl).2.1 (by decide),
    (run_exit_code_mapping cfgExit2 rfl rfl).2.2.1,
    (run_exit_code_mapping cfgExit2 rfl rfl).2.2.2.1,
    (run_exit_code_mapping cfgExit2 rfl rfl).2.2.2.2 rfl⟩

/-- Scenario of C7's witness: default transports, the reader acquisition
raises. -/
def cfgReaderRaises : RunConfig := ⟨false, false, true, false, 0⟩

/-- Witness for C7: under a reader setup failure the already-acquired
resources are released in reverse order and no process is spawned. -/
theorem run_releases_acquired_in_reverse_order_witness :
    releases (ExtSubprocess.run cfgReaderRaises).1 =
      ((acquisitions (ExtSubprocess.run cfgReaderRaises).1).map
        releaseFor).reverse ∧
    RunEvent.spawn ∉ (ExtSubprocess.run cfgReaderRaises).1 :=
  ⟨(run_releases_acquired_in_reverse_order cfgReaderRaises).1,
    (run_releases_acquired_in_reverse_order cfgReaderRaises).2 rfl⟩
